import Mathlib

/-!
Verification of the fetch/merge/reshape core of the Metrist Grafana
datasource backend (pkg/plugin/queries.go and pkg/internal/api_helpers.go).

Modelling conventions:
* Go strings are Lean `String`; Go `int`, `int64`, `int8` are Lean `Int`.
* A Go `time.Time` is modelled as an `Int` (an instant on a linear time
  scale, e.g. nanoseconds since the epoch); `time.Parse(time.RFC3339, s)`
  is an external library call and is modelled by an explicit parameter
  `parse : String -> Option Int` (`none` models a parse error).  The Go
  zero `time.Time` produced by a swallowed parse error is modelled by `0`.
* The generated openapi record structs (`MonitorErrorCount`,
  `MonitorTelemetry`, `StatusPageComponentChange`) carry pointer fields
  that every use-site dereferences; they are modelled with plain fields.
  The telemetry `Value` field is a `float32` carried around opaquely; it
  is modelled as an `Int` payload (no arithmetic is ever performed on it).
* The remote API client is modelled as an oracle giving the response to
  the i-th page request of a stream; a call either fails with a transport
  error (`FetchResult.err`) or yields a response whose `JSON200` field is
  `none` exactly when the HTTP status was not 200.
* A Go map used as an accumulator is modelled as an association list in
  insertion order; Go map iteration order is unspecified, and no theorem
  below depends on the relative order of frames coming from one map.
* `sort.SliceStable` is modelled by insertion sort (`List.insertionSort`),
  which computes the stable sort of its comparator.
* A nil-pointer dereference (Go panic) is modelled by a distinguished
  `fault`/`panic` outcome constructor.
-/

namespace MetristDatasource

/-- Go constant `maxPageCount = 20` (queries.go). -/
def maxPageCount : Nat := 20

/-- Record kind of `/monitor-errors` entries (generated openapi struct,
used via pkg/internal/api_helpers.go and queries.go). -/
structure MonitorErrorCount where
  Timestamp : String
  Count : Int
  Instance : String
  Check : String
  MonitorLogicalName : String
deriving DecidableEq

/-- Record kind of `/monitor-telemetry` entries. -/
structure MonitorTelemetry where
  Timestamp : String
  Value : Int
  Instance : String
  Check : String
  MonitorLogicalName : String
deriving DecidableEq

/-- Record kind of `/status-page-changes` entries. -/
structure StatusPageComponentChange where
  Timestamp : String
  Status : String
  Component : String
  MonitorLogicalName : String
deriving DecidableEq

/-- Function `MonitorErrorCount.GetKey` (api_helpers.go): the grouping key
`fmt.Sprintf("%s-%s-%s", Instance, Check, MonitorLogicalName)`; the same
formula is recomputed inline at queries.go line 57. -/
def MonitorErrorCount.GetKey (e : MonitorErrorCount) : String :=
  e.Instance ++ "-" ++ e.Check ++ "-" ++ e.MonitorLogicalName

/-- Function `MonitorTelemetry.GetKey` (api_helpers.go; inline at queries.go line 237). -/
def MonitorTelemetry.GetKey (te : MonitorTelemetry) : String :=
  te.Instance ++ "-" ++ te.Check ++ "-" ++ te.MonitorLogicalName

/-- Function `StatusPageComponentChange.GetKey` (api_helpers.go; inline at
queries.go line 324): `fmt.Sprintf("%s-%s", Component, MonitorLogicalName)`. -/
def StatusPageComponentChange.GetKey (spc : StatusPageComponentChange) : String :=
  spc.Component ++ "-" ++ spc.MonitorLogicalName

/-- A string that does not contain the key separator character. -/
def hyphenFree (s : String) : Prop := '-' ∉ s.data

instance (s : String) : Decidable (hyphenFree s) := by
  unfold hyphenFree; infer_instance

/-- Splitting at a separator absent from both prefixes is unique. -/
theorem sep_append_inj :
    ∀ (a b x y : List Char), '-' ∉ a → '-' ∉ b →
      a ++ '-' :: x = b ++ '-' :: y → a = b ∧ x = y := by
  intro a
  induction a with
  | nil =>
    intro b x y _ hb h
    cases b with
    | nil => simpa using h
    | cons c bs =>
      simp only [List.nil_append, List.cons_append, List.cons.injEq] at h
      exact absurd (h.1 ▸ List.mem_cons_self c bs) hb
  | cons c as ih =>
    intro b x y ha hb h
    cases b with
    | nil =>
      simp only [List.cons_append, List.nil_append, List.cons.injEq] at h
      exact absurd (h.1 ▸ List.mem_cons_self c as) ha
    | cons d bs =>
      simp only [List.cons_append, List.cons.injEq] at h
      have ha2 : '-' ∉ as := fun hm => ha (List.mem_cons_of_mem _ hm)
      have hb2 : '-' ∉ bs := fun hm => hb (List.mem_cons_of_mem _ hm)
      obtain ⟨h1, h2⟩ := ih bs x y ha2 hb2 h.2
      exact ⟨by rw [h.1, h1], h2⟩

theorem key3_inj (a1 c1 m1 a2 c2 m2 : String)
    (ha1 : hyphenFree a1) (hc1 : hyphenFree c1)
    (ha2 : hyphenFree a2) (hc2 : hyphenFree c2)
    (h : a1 ++ "-" ++ c1 ++ "-" ++ m1 = a2 ++ "-" ++ c2 ++ "-" ++ m2) :
    a1 = a2 ∧ c1 = c2 ∧ m1 = m2 := by
  have hd : a1.data ++ '-' :: (c1.data ++ '-' :: m1.data)
      = a2.data ++ '-' :: (c2.data ++ '-' :: m2.data) := by
    have := congrArg String.data h
    simpa [String.data_append, List.append_assoc] using this
  obtain ⟨h1, hrest⟩ := sep_append_inj _ _ _ _ ha1 ha2 hd
  obtain ⟨h2, h3⟩ := sep_append_inj _ _ _ _ hc1 hc2 hrest
  exact ⟨String.ext h1, String.ext h2, String.ext h3⟩

theorem key2_inj (a1 m1 a2 m2 : String)
    (ha1 : hyphenFree a1) (ha2 : hyphenFree a2)
    (h : a1 ++ "-" ++ m1 = a2 ++ "-" ++ m2) :
    a1 = a2 ∧ m1 = m2 := by
  have hd : a1.data ++ '-' :: m1.data = a2.data ++ '-' :: m2.data := by
    have := congrArg String.data h
    simpa [String.data_append, List.append_assoc] using this
  obtain ⟨h1, h2⟩ := sep_append_inj _ _ _ _ ha1 ha2 hd
  exact ⟨String.ext h1, String.ext h2⟩

/-- Concrete record exhibiting a grouping-key collision. -/
def keyCollisionLeft : MonitorErrorCount :=
  MonitorErrorCount.mk "2022-12-07T18:28:06Z" 1 "a-b" "c" "m"

/-- Second record of the grouping-key collision pair. -/
def keyCollisionRight : MonitorErrorCount :=
  MonitorErrorCount.mk "2022-12-07T18:28:06Z" 1 "a" "b-c" "m"

/-- Claim C1 (counterexample): the hyphen-joined grouping key is not
injective over distinct dimension tuples: two error-count records whose
instance and check dimensions differ map to the same key "a-b-c-m". -/
theorem groupingKey_not_injective :
    keyCollisionLeft.Instance ≠ keyCollisionRight.Instance ∧
    keyCollisionLeft.Check ≠ keyCollisionRight.Check ∧
    keyCollisionLeft.GetKey = keyCollisionRight.GetKey := by
  refine ⟨by decide, by decide, ?_⟩
  rfl

/-- Claim C1 (amended): two records with identical dimension values always
map to the same grouping key, and the key is injective over distinct
dimension tuples provided the leading dimension fields (instance and check
for error-count records; component for status-change records) do not
contain the separator character, a hyphen; without that restriction
injectivity fails. -/
theorem groupingKey_injective_hyphenFree :
    (∀ a b : MonitorErrorCount,
      hyphenFree a.Instance → hyphenFree a.Check →
      hyphenFree b.Instance → hyphenFree b.Check →
      (a.GetKey = b.GetKey ↔
        a.Instance = b.Instance ∧ a.Check = b.Check ∧
        a.MonitorLogicalName = b.MonitorLogicalName)) ∧
    (∀ c d : StatusPageComponentChange,
      hyphenFree c.Component → hyphenFree d.Component →
      (c.GetKey = d.GetKey ↔
        c.Component = d.Component ∧ c.MonitorLogicalName = d.MonitorLogicalName)) := by
  constructor
  · intro a b ha1 ha2 hb1 hb2
    constructor
    · intro h
      exact key3_inj _ _ _ _ _ _ ha1 ha2 hb1 hb2 h
    · rintro ⟨h1, h2, h3⟩
      unfold MonitorErrorCount.GetKey
      rw [h1, h2, h3]
  · intro c d hc1 hd1
    constructor
    · intro h
      exact key2_inj _ _ _ _ hc1 hd1 h
    · rintro ⟨h1, h2⟩
      unfold StatusPageComponentChange.GetKey
      rw [h1, h2]

/-- Witness for the amended C1 theorem at concrete hyphen-free inputs. -/
theorem groupingKey_injective_hyphenFree_witness :
    (MonitorErrorCount.mk "t1" 1 "useast1" "Check" "awslambda").GetKey
      = (MonitorErrorCount.mk "t2" 3 "useast1" "Check" "awslambda").GetKey :=
  (groupingKey_injective_hyphenFree.1
    (MonitorErrorCount.mk "t1" 1 "useast1" "Check" "awslambda")
    (MonitorErrorCount.mk "t2" 3 "useast1" "Check" "awslambda")
    (by decide) (by decide) (by decide) (by decide)).mpr ⟨rfl, rfl, rfl⟩

/-- Parsed body of a 200 page response: `Entries` plus
`Metadata.CursorAfter` (nil / absent cursor modelled as `none`). -/
structure PageBody (α : Type) where
  entries : List α
  cursorAfter : Option String
deriving DecidableEq

/-- Result of one remote page call: either a transport error (the Go
`err != nil` case) or a response whose `json200` field is `none` exactly
when the HTTP status was not 200. -/
inductive FetchResult (α : Type) where
  | err (msg : String)
  | ok (json200 : Option (PageBody α))
deriving DecidableEq

/-- Outcome of one goroutine of `fetchAllMonitorErrors` (queries.go,
lines 144-172).  `hardError` is `return err` after a transport failure;
`softStop` is the `response == nil` branch (log and `return nil`, keeping
what was already accumulated in `result[i]`); `done` is loop exit by nil
cursor or by exhausting `maxPageCount`. -/
inductive StreamOutcome (α : Type) where
  | hardError (msg : String)
  | softStop (acc : List α)
  | done (acc : List α)
deriving DecidableEq

/-- The page loop of one `fetchAllMonitorErrors` goroutine, together with
the number of page requests it issues.  `pages pc` is the remote response
to the request carrying the cursor obtained from page `pc - 1` (the
abstraction of `currentParam.CursorAfter`); `n` is the number of loop
iterations left (`maxPageCount - pageCount`). -/
def runMonitorErrorStream (pages : Nat → FetchResult MonitorErrorCount) :
    Nat → Nat → List MonitorErrorCount → StreamOutcome MonitorErrorCount × Nat
  | 0, _, acc => (.done acc, 0)
  | n + 1, pc, acc =>
    match pages pc with
    | .err msg => (.hardError msg, 1)
    | .ok none => (.softStop acc, 1)
    | .ok (some body) =>
      let acc2 := acc ++ body.entries
      match body.cursorAfter with
      | none => (.done acc2, 1)
      | some _ =>
        let r := runMonitorErrorStream pages n (pc + 1) acc2
        (r.1, r.2 + 1)

/-- One full stream of `fetchAllMonitorErrors`: the loop started at
`pageCount = 0` with an empty accumulator. -/
def fetchMonitorErrorStream (pages : Nat → FetchResult MonitorErrorCount) :
    StreamOutcome MonitorErrorCount × Nat :=
  runMonitorErrorStream pages maxPageCount 0 []

/-- Outcome of `fetchAllStatusPageMonitor` (queries.go, lines 400-421).
Unlike the monitor-errors loop, the body does not test `resp.JSON200`
for nil before dereferencing it (`*response.Entries`), so a non-200
response is a nil-pointer dereference, modelled by `fault`. -/
inductive StatusLoopOutcome where
  | hardError (msg : String)
  | fault
  | done (acc : List StatusPageComponentChange)
deriving DecidableEq

/-- The page loop of `fetchAllStatusPageMonitor`, with its request count. -/
def runStatusPageLoop (pages : Nat → FetchResult StatusPageComponentChange) :
    Nat → Nat → List StatusPageComponentChange → StatusLoopOutcome × Nat
  | 0, _, acc => (.done acc, 0)
  | n + 1, pc, acc =>
    match pages pc with
    | .err msg => (.hardError msg, 1)
    | .ok none => (.fault, 1)
    | .ok (some body) =>
      let acc2 := acc ++ body.entries
      match body.cursorAfter with
      | none => (.done acc2, 1)
      | some _ =>
        let r := runStatusPageLoop pages n (pc + 1) acc2
        (r.1, r.2 + 1)

/-- Function `fetchAllStatusPageMonitor` itself: the loop started at
`pageCount = 0` with the empty `monitorStatuses` accumulator. -/
def fetchAllStatusPageMonitor (pages : Nat → FetchResult StatusPageComponentChange) :
    StatusLoopOutcome × Nat :=
  runStatusPageLoop pages maxPageCount 0 []

theorem runMonitorErrorStream_requests_le
    (pages : Nat → FetchResult MonitorErrorCount) :
    ∀ n pc acc, (runMonitorErrorStream pages n pc acc).2 ≤ n := by
  intro n
  induction n with
  | zero => intro pc acc; simp [runMonitorErrorStream]
  | succ n ih =>
    intro pc acc
    unfold runMonitorErrorStream
    cases h : pages pc with
    | err msg => simp
    | ok j =>
      cases j with
      | none => simp
      | some body =>
        cases hc : body.cursorAfter with
        | none => simp [hc]
        | some c =>
          simp only [hc]
          exact Nat.succ_le_succ (ih _ _)

theorem runStatusPageLoop_requests_le
    (pages : Nat → FetchResult StatusPageComponentChange) :
    ∀ n pc acc, (runStatusPageLoop pages n pc acc).2 ≤ n := by
  intro n
  induction n with
  | zero => intro pc acc; simp [runStatusPageLoop]
  | succ n ih =>
    intro pc acc
    unfold runStatusPageLoop
    cases h : pages pc with
    | err msg => simp
    | ok j =>
      cases j with
      | none => simp
      | some body =>
        cases hc : body.cursorAfter with
        | none => simp [hc]
        | some c =>
          simp only [hc]
          exact Nat.succ_le_succ (ih _ _)

theorem runMonitorErrorStream_early_stop
    (pages : Nat → FetchResult MonitorErrorCount) :
    ∀ k n pc acc, k < n →
      (∀ i, i < k → ∃ b c, pages (pc + i) = .ok (some b) ∧ b.cursorAfter = some c) →
      (∃ b, pages (pc + k) = .ok (some b) ∧ b.cursorAfter = none) →
      (runMonitorErrorStream pages n pc acc).2 = k + 1 := by
  intro k
  induction k with
  | zero =>
    intro n pc acc hn _ hstop
    obtain ⟨n, rfl⟩ := Nat.exists_eq_add_of_lt hn
    obtain ⟨b, hb, hc⟩ := hstop
    rw [Nat.add_comm pc 0] at hb
    simp only [Nat.zero_add] at hb
    show (runMonitorErrorStream pages (0 + n + 1) pc acc).2 = 1
    unfold runMonitorErrorStream
    simp [hb, hc]
  | succ k ih =>
    intro n pc acc hn hcont hstop
    obtain ⟨m, rfl⟩ := Nat.exists_eq_add_of_lt hn
    obtain ⟨b, c, hb, hc⟩ := hcont 0 (Nat.succ_pos k)
    rw [Nat.add_zero] at hb
    show (runMonitorErrorStream pages (k + 1 + m + 1) pc acc).2 = k + 1 + 1
    unfold runMonitorErrorStream
    simp only [hb, hc]
    have hrec : (runMonitorErrorStream pages (k + 1 + m) (pc + 1) (acc ++ b.entries)).2
        = k + 1 := by
      apply ih
      · omega
      · intro i hi
        have heq : pc + 1 + i = pc + (i + 1) := by omega
        rw [heq]
        exact hcont (i + 1) (Nat.succ_lt_succ hi)
      · obtain ⟨b2, hb2, hc2⟩ := hstop
        have heq : pc + 1 + k = pc + (k + 1) := by omega
        exact ⟨b2, by rw [heq]; exact hb2, hc2⟩
    simp [hrec]

theorem runStatusPageLoop_early_stop
    (pages : Nat → FetchResult StatusPageComponentChange) :
    ∀ k n pc acc, k < n →
      (∀ i, i < k → ∃ b c, pages (pc + i) = .ok (some b) ∧ b.cursorAfter = some c) →
      (∃ b, pages (pc + k) = .ok (some b) ∧ b.cursorAfter = none) →
      (runStatusPageLoop pages n pc acc).2 = k + 1 := by
  intro k
  induction k with
  | zero =>
    intro n pc acc hn _ hstop
    obtain ⟨n, rfl⟩ := Nat.exists_eq_add_of_lt hn
    obtain ⟨b, hb, hc⟩ := hstop
    rw [Nat.add_comm pc 0] at hb
    simp only [Nat.zero_add] at hb
    show (runStatusPageLoop pages (0 + n + 1) pc acc).2 = 1
    unfold runStatusPageLoop
    simp [hb, hc]
  | succ k ih =>
    intro n pc acc hn hcont hstop
    obtain ⟨m, rfl⟩ := Nat.exists_eq_add_of_lt hn
    obtain ⟨b, c, hb, hc⟩ := hcont 0 (Nat.succ_pos k)
    rw [Nat.add_zero] at hb
    show (runStatusPageLoop pages (k + 1 + m + 1) pc acc).2 = k + 1 + 1
    unfold runStatusPageLoop
    simp only [hb, hc]
    have hrec : (runStatusPageLoop pages (k + 1 + m) (pc + 1) (acc ++ b.entries)).2
        = k + 1 := by
      apply ih
      · omega
      · intro i hi
        have heq : pc + 1 + i = pc + (i + 1) := by omega
        rw [heq]
        exact hcont (i + 1) (Nat.succ_lt_succ hi)
      · obtain ⟨b2, hb2, hc2⟩ := hstop
        have heq : pc + 1 + k = pc + (k + 1) := by omega
        exact ⟨b2, by rw [heq]; exact hb2, hc2⟩
    simp [hrec]

/-- Claim C2: every paginated fetch loop (a monitor-errors stream, and the
status-page-changes fetch) issues at most maxPageCount = 20 page requests,
for every sequence of remote page responses; and it stops right after the
first response whose cursorAfter is nil when all earlier responses carried
a body and a non-nil cursor. -/
theorem pagination_bounded
    (pagesE : Nat → FetchResult MonitorErrorCount)
    (pagesS : Nat → FetchResult StatusPageComponentChange) :
    (fetchMonitorErrorStream pagesE).2 ≤ maxPageCount ∧
    (fetchAllStatusPageMonitor pagesS).2 ≤ maxPageCount ∧
    (∀ k, k < maxPageCount →
      (∀ i, i < k → ∃ b c, pagesE i = .ok (some b) ∧ b.cursorAfter = some c) →
      (∃ b, pagesE k = .ok (some b) ∧ b.cursorAfter = none) →
      (fetchMonitorErrorStream pagesE).2 = k + 1) ∧
    (∀ k, k < maxPageCount →
      (∀ i, i < k → ∃ b c, pagesS i = .ok (some b) ∧ b.cursorAfter = some c) →
      (∃ b, pagesS k = .ok (some b) ∧ b.cursorAfter = none) →
      (fetchAllStatusPageMonitor pagesS).2 = k + 1) := by
  refine ⟨runMonitorErrorStream_requests_le pagesE _ _ _,
    runStatusPageLoop_requests_le pagesS _ _ _, ?_, ?_⟩
  · intro k hk hcont hstop
    exact runMonitorErrorStream_early_stop pagesE k maxPageCount 0 [] hk
      (by simpa using hcont) (by simpa using hstop)
  · intro k hk hcont hstop
    exact runStatusPageLoop_early_stop pagesS k maxPageCount 0 [] hk
      (by simpa using hcont) (by simpa using hstop)

/-- Witness for C2: with an oracle answering every request with one entry
and a nil cursor, each loop issues exactly one request. -/
theorem pagination_bounded_witness :
    (fetchMonitorErrorStream (fun _ => .ok (some ⟨[], none⟩))).2 = 0 + 1 ∧
    (fetchAllStatusPageMonitor (fun _ => .ok (some ⟨[], none⟩))).2 = 0 + 1 := by
  have h := pagination_bounded (fun _ => .ok (some ⟨[], none⟩))
    (fun _ => .ok (some ⟨[], none⟩))
  exact ⟨h.2.2.1 0 (by decide) (by omega) ⟨⟨[], none⟩, rfl, rfl⟩,
    h.2.2.2 0 (by decide) (by omega) ⟨⟨[], none⟩, rfl, rfl⟩⟩

/-- Function `strToTime` (used by the sort comparator at queries.go line 187):
parses the timestamp and swallows the error, so an unparseable string
yields the Go zero time, modelled as 0. -/
def strToTime (parse : String → Option Int) (s : String) : Int :=
  (parse s).getD 0

/-- The comparator underlying `sort.SliceStable` at queries.go lines
186-188: record i sorts before record j when its parsed timestamp is
earlier.  Stated as the reflexive total order the stable sort realises. -/
def errorTimeLE (parse : String → Option Int) (a b : MonitorErrorCount) : Prop :=
  strToTime parse a.Timestamp ≤ strToTime parse b.Timestamp

instance (parse : String → Option Int) : DecidableRel (errorTimeLE parse) := by
  intro a b
  unfold errorTimeLE
  infer_instance

instance (parse : String → Option Int) :
    IsTotal MonitorErrorCount (errorTimeLE parse) :=
  ⟨fun _ _ => Int.le_total _ _⟩

instance (parse : String → Option Int) :
    IsTrans MonitorErrorCount (errorTimeLE parse) :=
  ⟨fun _ _ _ => Int.le_trans⟩

/-- The call `sort.SliceStable(monitorErrors, ...)` modelled as the stable sort of
the comparator (insertion sort computes exactly the stable sort). -/
def sortMonitorErrors (parse : String → Option Int)
    (l : List MonitorErrorCount) : List MonitorErrorCount :=
  List.insertionSort (errorTimeLE parse) l

/-- The records a finished stream left in its `result[i]` slot. -/
def StreamOutcome.records : StreamOutcome α → List α
  | .hardError _ => []
  | .softStop acc => acc
  | .done acc => acc

/-- The call `g.Wait()` surfaces an error exactly when some goroutine returned one. -/
def StreamOutcome.errOf : StreamOutcome α → Option String
  | .hardError msg => some msg
  | _ => none

/-- Number of pagination streams launched by `fetchAllMonitorErrors`:
one base variant, plus an `OnlyShared` variant when `IncludeShared`
is set (queries.go lines 116-135). -/
def numStreams (includeShared : Bool) : Nat :=
  if includeShared then 2 else 1

/-- The concatenation, in stream order, of the `result[i]` slots
(queries.go lines 179-185; skipping empty slots does not change the
concatenation).  Stream 0 is the base (non-shared) parameter variant,
stream 1 the `OnlyShared` variant. -/
def mergedMonitorErrors (includeShared : Bool)
    (pages : Nat → Nat → FetchResult MonitorErrorCount) :
    List MonitorErrorCount :=
  ((List.range (numStreams includeShared)).map
      (fun i => (fetchMonitorErrorStream (pages i)).1)).foldl
    (fun acc r => acc ++ r.records) []

/-- Function `fetchAllMonitorErrors` (queries.go lines 115-190): run the streams,
fail with the error of a failed stream and no records, otherwise return
the stable timestamp sort of the concatenated stream results. -/
def fetchAllMonitorErrors (parse : String → Option Int) (includeShared : Bool)
    (pages : Nat → Nat → FetchResult MonitorErrorCount) :
    Except String (List MonitorErrorCount) :=
  match ((List.range (numStreams includeShared)).map
      (fun i => (fetchMonitorErrorStream (pages i)).1)).findSome?
      StreamOutcome.errOf with
  | some msg => .error msg
  | none => .ok (sortMonitorErrors parse (mergedMonitorErrors includeShared pages))

/-- Claim C3: if any stream of the monitor-errors fetch ends in a
transport (hard) error, the whole fetch returns an error of a failed
stream and no record collection (the `Except.error` result carries no
records); and when every other stream succeeded, the returned error is
exactly the failing stream's error. -/
theorem fetchAllMonitorErrors_fail_fast (parse : String → Option Int)
    (includeShared : Bool) (pages : Nat → Nat → FetchResult MonitorErrorCount)
    (i : Nat) (msg : String) (hi : i < numStreams includeShared)
    (hrun : (fetchMonitorErrorStream (pages i)).1 = .hardError msg) :
    (∃ m2 j, j < numStreams includeShared ∧
        (fetchMonitorErrorStream (pages j)).1 = .hardError m2 ∧
        fetchAllMonitorErrors parse includeShared pages = .error m2) ∧
    ((∀ j, j < numStreams includeShared → j ≠ i →
        ∀ m, (fetchMonitorErrorStream (pages j)).1 ≠ .hardError m) →
      fetchAllMonitorErrors parse includeShared pages = .error msg) := by
  cases includeShared with
  | false =>
    have hi0 : i = 0 := by
      simp only [numStreams, Bool.false_eq_true, if_false] at hi
      omega
    subst hi0
    have hres : fetchAllMonitorErrors parse false pages = .error msg := by
      simp [fetchAllMonitorErrors, numStreams, List.range_succ,
        List.findSome?_cons, hrun, StreamOutcome.errOf]
    exact ⟨⟨msg, 0, by simp [numStreams], hrun, hres⟩, fun _ => hres⟩
  | true =>
    have hi2 : i = 0 ∨ i = 1 := by
      simp only [numStreams, if_true] at hi
      omega
    rcases h0 : (fetchMonitorErrorStream (pages 0)).1 with m0 | a0 | a0
    · have hres : fetchAllMonitorErrors parse true pages = .error m0 := by
        simp [fetchAllMonitorErrors, numStreams, List.range_succ,
          List.findSome?_cons, h0, StreamOutcome.errOf]
      refine ⟨⟨m0, 0, by simp [numStreams], h0, hres⟩, ?_⟩
      intro hothers
      rcases hi2 with rfl | rfl
      · rw [hrun] at h0
        cases h0
        exact hres
      · exact absurd h0 (hothers 0 (by simp [numStreams]) (by omega) m0)
    · rcases hi2 with rfl | rfl
      · rw [hrun] at h0
        cases h0
      · have hres : fetchAllMonitorErrors parse true pages = .error msg := by
          simp [fetchAllMonitorErrors, numStreams, List.range_succ,
            List.findSome?_cons, h0, hrun, StreamOutcome.errOf]
        exact ⟨⟨msg, 1, by simp [numStreams], hrun, hres⟩, fun _ => hres⟩
    · rcases hi2 with rfl | rfl
      · rw [hrun] at h0
        cases h0
      · have hres : fetchAllMonitorErrors parse true pages = .error msg := by
          simp [fetchAllMonitorErrors, numStreams, List.range_succ,
            List.findSome?_cons, h0, hrun, StreamOutcome.errOf]
        exact ⟨⟨msg, 1, by simp [numStreams], hrun, hres⟩, fun _ => hres⟩

/-- Witness for C3: with a healthy non-shared stream and a shared stream
failing with a transport error, the whole fetch fails with no records. -/
theorem fetchAllMonitorErrors_fail_fast_witness :
    ∃ m2 j, j < numStreams true ∧
      (fetchMonitorErrorStream
        ((fun i _ => if i = 0 then .ok (some ⟨[], none⟩) else .err "timeout") j)).1
        = .hardError m2 ∧
      fetchAllMonitorErrors (fun _ => none) true
        (fun i _ => if i = 0 then .ok (some ⟨[], none⟩) else .err "timeout")
        = .error m2 :=
  (fetchAllMonitorErrors_fail_fast (fun _ => none) true
    (fun i _ => if i = 0 then .ok (some ⟨[], none⟩) else .err "timeout")
    1 "timeout" (by decide) (by decide)).1

theorem filter_orderedInsert_time (parse : String → Option Int)
    (x : MonitorErrorCount) (l : List MonitorErrorCount) (t : Int) :
    (List.orderedInsert (errorTimeLE parse) x l).filter
        (fun r => strToTime parse r.Timestamp == t)
      = if strToTime parse x.Timestamp == t then
          x :: l.filter (fun r => strToTime parse r.Timestamp == t)
        else l.filter (fun r => strToTime parse r.Timestamp == t) := by
  induction l with
  | nil =>
    simp only [List.orderedInsert, List.filter_cons, List.filter_nil]
  | cons y ys ih =>
    by_cases hxy : errorTimeLE parse x y
    · simp [List.orderedInsert, hxy, List.filter_cons]
    · have hlt : strToTime parse y.Timestamp < strToTime parse x.Timestamp := by
        simp only [errorTimeLE, not_le] at hxy
        exact hxy
      simp only [List.orderedInsert, if_neg hxy, List.filter_cons, ih]
      by_cases hx : strToTime parse x.Timestamp = t
      · have hy : (strToTime parse y.Timestamp == t) = false := by
          simp only [beq_eq_false_iff_ne, ne_eq]
          omega
        simp [hx, hy]
      · have hx2 : (strToTime parse x.Timestamp == t) = false := by
          simp [beq_eq_false_iff_ne, hx]
        simp [hx2]

theorem filter_sortMonitorErrors (parse : String → Option Int)
    (l : List MonitorErrorCount) (t : Int) :
    (sortMonitorErrors parse l).filter (fun r => strToTime parse r.Timestamp == t)
      = l.filter (fun r => strToTime parse r.Timestamp == t) := by
  induction l with
  | nil => rfl
  | cons x xs ih =>
    show (List.orderedInsert (errorTimeLE parse) x
        (List.insertionSort (errorTimeLE parse) xs)).filter _ = _
    rw [filter_orderedInsert_time, List.filter_cons]
    by_cases hx : (strToTime parse x.Timestamp == t) = true
    · simp only [hx, if_true]
      exact congrArg (x :: ·) ih
    · simp only [hx, if_false, Bool.false_eq_true]
      exact ih

/-- Claim C5: on success the monitor-errors fetch returns the stable
ascending timestamp sort of the merged stream results: the output is
sorted by parsed timestamp, is a permutation of the merged input, every
equal-timestamp class keeps its pre-sort relative order, and the pre-sort
order places the non-shared stream's records before the shared stream's,
so equal-timestamp records of the non-shared stream come first. -/
theorem fetchAllMonitorErrors_sorted_stable (parse : String → Option Int)
    (includeShared : Bool) (pages : Nat → Nat → FetchResult MonitorErrorCount)
    (rs : List MonitorErrorCount)
    (h : fetchAllMonitorErrors parse includeShared pages = .ok rs) :
    List.Sorted (errorTimeLE parse) rs ∧
    List.Perm rs (mergedMonitorErrors includeShared pages) ∧
    (∀ t : Int,
      rs.filter (fun r => strToTime parse r.Timestamp == t)
        = (mergedMonitorErrors includeShared pages).filter
            (fun r => strToTime parse r.Timestamp == t)) ∧
    (includeShared = true →
      mergedMonitorErrors true pages
        = (fetchMonitorErrorStream (pages 0)).1.records
            ++ (fetchMonitorErrorStream (pages 1)).1.records) ∧
    (includeShared = true → ∀ t : Int,
      rs.filter (fun r => strToTime parse r.Timestamp == t)
        = (fetchMonitorErrorStream (pages 0)).1.records.filter
            (fun r => strToTime parse r.Timestamp == t)
          ++ (fetchMonitorErrorStream (pages 1)).1.records.filter
            (fun r => strToTime parse r.Timestamp == t)) := by
  have hmerge2 : includeShared = true →
      mergedMonitorErrors true pages
        = (fetchMonitorErrorStream (pages 0)).1.records
            ++ (fetchMonitorErrorStream (pages 1)).1.records := by
    intro _
    simp [mergedMonitorErrors, numStreams, List.range_succ]
  have hrs : rs = sortMonitorErrors parse (mergedMonitorErrors includeShared pages) := by
    unfold fetchAllMonitorErrors at h
    split at h
    · cases h
    · injection h with h2
      exact h2.symm
  subst hrs
  refine ⟨List.sorted_insertionSort (errorTimeLE parse) _,
    List.perm_insertionSort (errorTimeLE parse) _,
    fun t => filter_sortMonitorErrors parse _ t, hmerge2, ?_⟩
  intro hs t
  rw [filter_sortMonitorErrors parse _ t]
  subst hs
  rw [hmerge2 rfl, List.filter_append]

/-- Concrete record for the C5 witness. -/
def mergeWitnessRecord : MonitorErrorCount :=
  MonitorErrorCount.mk "2022-12-07T18:28:06Z" 1 "useast1" "Check" "awslambda"

/-- Concrete parse oracle for the C5 witness. -/
def mergeWitnessParse : String → Option Int :=
  fun s => if s = "2022-12-07T18:28:06Z" then some 1670437686 else none

/-- Concrete page oracle for the C5 witness: one page, one record, nil cursor. -/
def mergeWitnessPages : Nat → Nat → FetchResult MonitorErrorCount :=
  fun _ _ => .ok (some ⟨[mergeWitnessRecord], none⟩)

/-- Witness for C5 at a concrete successful fetch. -/
theorem fetchAllMonitorErrors_sorted_stable_witness :
    List.Sorted (errorTimeLE mergeWitnessParse) [mergeWitnessRecord] ∧
    List.Perm [mergeWitnessRecord] (mergedMonitorErrors false mergeWitnessPages) ∧
    (∀ t : Int,
      [mergeWitnessRecord].filter
          (fun r => strToTime mergeWitnessParse r.Timestamp == t)
        = (mergedMonitorErrors false mergeWitnessPages).filter
            (fun r => strToTime mergeWitnessParse r.Timestamp == t)) ∧
    (false = true →
      mergedMonitorErrors true mergeWitnessPages
        = (fetchMonitorErrorStream (mergeWitnessPages 0)).1.records
            ++ (fetchMonitorErrorStream (mergeWitnessPages 1)).1.records) ∧
    (false = true → ∀ t : Int,
      [mergeWitnessRecord].filter
          (fun r => strToTime mergeWitnessParse r.Timestamp == t)
        = (fetchMonitorErrorStream (mergeWitnessPages 0)).1.records.filter
            (fun r => strToTime mergeWitnessParse r.Timestamp == t)
          ++ (fetchMonitorErrorStream (mergeWitnessPages 1)).1.records.filter
            (fun r => strToTime mergeWitnessParse r.Timestamp == t)) :=
  fetchAllMonitorErrors_sorted_stable mergeWitnessParse false mergeWitnessPages
    [mergeWitnessRecord] rfl

/-- One record returned on the first page of the C4 scenario. -/
def softStopRecord : MonitorErrorCount :=
  MonitorErrorCount.mk "2022-12-07T18:28:06Z" 2 "useast1" "Check" "awslambda"

/-- Monitor-errors page oracle: page 0 succeeds with a cursor, page 1 is a
non-2xx response carrying no parsed body. -/
def softStopPages : Nat → FetchResult MonitorErrorCount :=
  fun pc => if pc = 0 then .ok (some ⟨[softStopRecord], some "cursor1"⟩) else .ok none

/-- One record returned on the first page of the status-page C4 scenario. -/
def faultRecord : StatusPageComponentChange :=
  StatusPageComponentChange.mk "2022-12-07T18:28:06Z" "up" "lambda" "awslambda"

/-- Status-page oracle: page 0 succeeds with a cursor, page 1 is a non-2xx
response carrying no parsed body. -/
def faultPages : Nat → FetchResult StatusPageComponentChange :=
  fun pc => if pc = 0 then .ok (some ⟨[faultRecord], some "cursor1"⟩) else .ok none

/-- Claim C4 (evaluation at the failing input): on a page response with no
parsed 200 body, the monitor-errors stream soft-stops, keeping the records
accumulated from earlier pages and reporting no error — but the
status-page fetch dereferences the nil body and faults instead of
returning the accumulated records. -/
theorem nonSuccessPage_softStop_vs_fault :
    (fetchMonitorErrorStream softStopPages).1 = .softStop [softStopRecord] ∧
    (fetchAllStatusPageMonitor faultPages).1 = .fault := by
  exact ⟨rfl, rfl⟩

/-- The `data.FrameMeta.Type` values used by queries.go. -/
inductive FrameType where
  | timeSeriesMulti
  | timeSeriesWide
deriving DecidableEq

/-- A cell of a frame row (grafana field values are typed columns; a row
is the tuple handed to `Frame.AppendRow`). -/
inductive FieldVal where
  | vTime (t : Int)
  | vInt (n : Int)
  | vStr (s : String)
deriving DecidableEq

/-- A grafana `data.Frame` as queries.go builds them, modelled row-major:
`fieldNames` are the column names, `labels` the label set attached to the
measurement column, `mappings` the discrete value-to-display mapping that
the status-page handler sets on every column except the time column. -/
structure Frame where
  fieldNames : List String
  labels : List (String × String)
  ftype : FrameType
  preferredVisualization : Option String
  mappings : List (String × String × String)
  rows : List (List FieldVal)
deriving DecidableEq

/-- A Go `map[string]*data.Frame` as an association list in insertion
order (Go iteration order is unspecified; no theorem below depends on
the order of entries). -/
abbrev FrameMap := List (String × Frame)

/-- Map lookup. -/
def FrameMap.find? : FrameMap → String → Option Frame
  | [], _ => none
  | (k2, f) :: rest, k => if k2 = k then some f else FrameMap.find? rest k

/-- The call `frameToAppendTo.AppendRow(...)`: append one row to the frame stored
under the given key (the map holds pointers, so the update is in place). -/
def FrameMap.appendRow : FrameMap → String → List FieldVal → FrameMap
  | [], _, _ => []
  | (k2, f) :: rest, k, row =>
    if k2 = k then (k2, { f with rows := f.rows ++ [row] }) :: rest
    else (k2, f) :: FrameMap.appendRow rest k row

/-- The `frameToAppendTo, ok := m[key]; if !ok { m[key] = fresh }` pattern
shared by every frame-building loop: keep the map if the key is present,
otherwise insert the freshly created frame. -/
def FrameMap.getOrCreate (m : FrameMap) (k : String) (fresh : Frame) : FrameMap :=
  match m.find? k with
  | some _ => m
  | none => m ++ [(k, fresh)]

/-- The fresh graph frame created for a new key (queries.go lines 61-71). -/
def mkErrorGraphFrame (e : MonitorErrorCount) : Frame :=
  { fieldNames := ["time", "count"],
    labels := [("instance", e.Instance), ("check", e.Check),
      ("monitor", e.MonitorLogicalName)],
    ftype := .timeSeriesMulti,
    preferredVisualization := none,
    mappings := [],
    rows := [] }

/-- The fresh table frame created for a new key (queries.go lines 80-92). -/
def mkErrorTableFrame : Frame :=
  { fieldNames := ["time", "count", "instance", "check", "monitor"],
    labels := [],
    ftype := .timeSeriesWide,
    preferredVisualization := some "table",
    mappings := [],
    rows := [] }

/-- The row `AppendRow(timestamp, int64(*monitorError.Count))` appends to
the key's graph frame (queries.go line 76). -/
def errorGraphRow (ts : Int) (e : MonitorErrorCount) : List FieldVal :=
  [.vTime ts, .vInt e.Count]

/-- The row appended to the key's table frame (queries.go line 96). -/
def errorTableRow (ts : Int) (e : MonitorErrorCount) : List FieldVal :=
  [.vTime ts, .vInt e.Count, .vStr e.Instance, .vStr e.Check,
    .vStr e.MonitorLogicalName]

/-- One iteration of the frame-building loop of `QueryMonitorErrors`
(queries.go lines 50-97): skip the record if its timestamp does not
parse, otherwise create the key's graph and table frames if absent and
append one row to each. -/
def stepMonitorError (parse : String → Option Int)
    (st : FrameMap × FrameMap) (e : MonitorErrorCount) : FrameMap × FrameMap :=
  match parse e.Timestamp with
  | none => st
  | some ts =>
    let key := e.Instance ++ "-" ++ e.Check ++ "-" ++ e.MonitorLogicalName
    let g2 := (st.1.getOrCreate key (mkErrorGraphFrame e)).appendRow key
      (errorGraphRow ts e)
    let tm2 := (st.2.getOrCreate key mkErrorTableFrame).appendRow key
      (errorTableRow ts e)
    (g2, tm2)

/-- The full frame-building loop of `QueryMonitorErrors` over the fetched
record collection, starting from empty graph and table maps. -/
def buildMonitorErrorFrameMaps (parse : String → Option Int)
    (rs : List MonitorErrorCount) : FrameMap × FrameMap :=
  rs.foldl (stepMonitorError parse) ([], [])

/-- The frames list assembled by `QueryMonitorErrors` (queries.go lines
99-110): all graph frames, then — unless the query came from alerting —
all table frames. -/
def queryMonitorErrorsFrames (parse : String → Option Int)
    (fromAlerting : Bool) (rs : List MonitorErrorCount) : List Frame :=
  let maps := buildMonitorErrorFrameMaps parse rs
  let frames := maps.1.map Prod.snd
  if !fromAlerting then frames ++ maps.2.map Prod.snd else frames

/-- Fresh telemetry graph frame (queries.go lines 241-251). -/
def mkTelemetryGraphFrame (te : MonitorTelemetry) : Frame :=
  { fieldNames := ["time", "response time (ms)"],
    labels := [("instance", te.Instance), ("check", te.Check),
      ("monitor", te.MonitorLogicalName)],
    ftype := .timeSeriesMulti,
    preferredVisualization := none,
    mappings := [],
    rows := [] }

/-- Fresh telemetry table frame (queries.go lines 260-272). -/
def mkTelemetryTableFrame : Frame :=
  { fieldNames := ["time", "response time (ms)", "instance", "check", "monitor"],
    labels := [],
    ftype := .timeSeriesWide,
    preferredVisualization := some "table",
    mappings := [],
    rows := [] }

/-- One iteration of the telemetry frame-building loop (queries.go lines
230-277). -/
def stepMonitorTelemetry (parse : String → Option Int)
    (st : FrameMap × FrameMap) (te : MonitorTelemetry) : FrameMap × FrameMap :=
  match parse te.Timestamp with
  | none => st
  | some ts =>
    let key := te.Instance ++ "-" ++ te.Check ++ "-" ++ te.MonitorLogicalName
    let g2 := (st.1.getOrCreate key (mkTelemetryGraphFrame te)).appendRow key
      [.vTime ts, .vInt te.Value]
    let tm2 := (st.2.getOrCreate key mkTelemetryTableFrame).appendRow key
      [.vTime ts, .vInt te.Value, .vStr te.Instance, .vStr te.Check,
        .vStr te.MonitorLogicalName]
    (g2, tm2)

/-- The telemetry frame-building loop over the response collection. -/
def buildMonitorTelemetryFrameMaps (parse : String → Option Int)
    (rs : List MonitorTelemetry) : FrameMap × FrameMap :=
  rs.foldl (stepMonitorTelemetry parse) ([], [])

/-- The frames list assembled by `QueryMonitorTelemetry` (queries.go
lines 279-290). -/
def queryMonitorTelemetryFrames (parse : String → Option Int)
    (fromAlerting : Bool) (rs : List MonitorTelemetry) : List Frame :=
  let maps := buildMonitorTelemetryFrameMaps parse rs
  let frames := maps.1.map Prod.snd
  if !fromAlerting then frames ++ maps.2.map Prod.snd else frames

/-- Function `spcStatusToInt` (queries.go lines 423-432): a fixed vocabulary map
with Go's zero default for unknown statuses. -/
def spcStatusToInt (status : String) : Int :=
  if status = "up" then 0
  else if status = "operational" then 0
  else if status = "degraded" then 1
  else if status = "down" then 2
  else 0

/-- Fresh status-page graph frame (queries.go lines 328-338). -/
def mkStatusGraphFrame (spc : StatusPageComponentChange) : Frame :=
  { fieldNames := ["time", "status"],
    labels := [("component", spc.Component), ("monitor", spc.MonitorLogicalName)],
    ftype := .timeSeriesMulti,
    preferredVisualization := none,
    mappings := [],
    rows := [] }

/-- Fresh status-page table frame (queries.go lines 347-358). -/
def mkStatusTableFrame : Frame :=
  { fieldNames := ["time", "status", "component", "monitor"],
    labels := [],
    ftype := .timeSeriesWide,
    preferredVisualization := some "table",
    mappings := [],
    rows := [] }

/-- One iteration of the status-page frame-building loop (queries.go
lines 317-363). -/
def stepStatusPageChange (parse : String → Option Int)
    (st : FrameMap × FrameMap) (spc : StatusPageComponentChange) :
    FrameMap × FrameMap :=
  match parse spc.Timestamp with
  | none => st
  | some ts =>
    let key := spc.Component ++ "-" ++ spc.MonitorLogicalName
    let g2 := (st.1.getOrCreate key (mkStatusGraphFrame spc)).appendRow key
      [.vTime ts, .vInt (spcStatusToInt spc.Status)]
    let tm2 := (st.2.getOrCreate key mkStatusTableFrame).appendRow key
      [.vTime ts, .vInt (spcStatusToInt spc.Status), .vStr spc.Component,
        .vStr spc.MonitorLogicalName]
    (g2, tm2)

/-- The status-page frame-building loop over the fetched collection. -/
def buildStatusPageFrameMaps (parse : String → Option Int)
    (rs : List StatusPageComponentChange) : FrameMap × FrameMap :=
  rs.foldl (stepStatusPageChange parse) ([], [])

/-- The discrete value-to-display mapping the status-page handler sets
(queries.go lines 387-393): ordinal, label text, color. -/
def statusValueMappings : List (String × String × String) :=
  [("0", "(0) up", "green"), ("1", "(1) degraded", "yellow"),
    ("2", "(2) error", "red")]

/-- The frames list assembled by `QueryMonitorStatusPageChanges`
(queries.go lines 365-395): graph frames, table frames unless alerting,
then the value-mapping config set on every column except the time column
of every frame (modelled frame-level). -/
def queryStatusPageFrames (parse : String → Option Int)
    (fromAlerting : Bool) (rs : List StatusPageComponentChange) : List Frame :=
  let maps := buildStatusPageFrameMaps parse rs
  let frames := maps.1.map Prod.snd
  let frames2 := if !fromAlerting then frames ++ maps.2.map Prod.snd else frames
  frames2.map (fun f => { f with mappings := statusValueMappings })

/-- The rows currently stored under a key (empty when absent). -/
def FrameMap.rowsAt (m : FrameMap) (k : String) : List (List FieldVal) :=
  match m.find? k with
  | some f => f.rows
  | none => []

/-- Total number of rows across the map's frames. -/
def FrameMap.totalRows (m : FrameMap) : Nat :=
  (m.map (fun kv => kv.2.rows.length)).sum

theorem FrameMap.find?_eq_none_iff (m : FrameMap) (k : String) :
    m.find? k = none ↔ k ∉ m.map Prod.fst := by
  induction m with
  | nil => simp [FrameMap.find?]
  | cons kv rest ih =>
    by_cases h : kv.1 = k
    · simp [FrameMap.find?, h]
    · simp only [FrameMap.find?, if_neg h, ih, List.map_cons, List.mem_cons]
      constructor
      · intro hn hor
        rcases hor with h2 | h2
        · exact h h2.symm
        · exact hn h2
      · intro hn h2
        exact hn (Or.inr h2)

theorem FrameMap.isSome_find?_iff (m : FrameMap) (k : String) :
    (m.find? k).isSome ↔ k ∈ m.map Prod.fst := by
  cases hf : m.find? k with
  | none => simp [(FrameMap.find?_eq_none_iff m k).mp hf]
  | some f =>
    simp only [Option.isSome_some, true_iff]
    by_contra hm
    rw [← FrameMap.find?_eq_none_iff] at hm
    rw [hf] at hm
    simp at hm

theorem FrameMap.keys_appendRow (m : FrameMap) (k : String) (row : List FieldVal) :
    (m.appendRow k row).map Prod.fst = m.map Prod.fst := by
  induction m with
  | nil => rfl
  | cons kv rest ih =>
    rcases kv with ⟨k2, f⟩
    by_cases h : k2 = k
    · simp [FrameMap.appendRow, h]
    · simp [FrameMap.appendRow, h, ih]

theorem FrameMap.find?_appendRow_self (m : FrameMap) (k : String)
    (row : List FieldVal) :
    (m.appendRow k row).find? k
      = (m.find? k).map (fun f => { f with rows := f.rows ++ [row] }) := by
  induction m with
  | nil => rfl
  | cons kv rest ih =>
    rcases kv with ⟨k2, f⟩
    by_cases h : k2 = k
    · simp [FrameMap.appendRow, FrameMap.find?, h]
    · simp [FrameMap.appendRow, FrameMap.find?, h, ih]

theorem FrameMap.find?_appendRow_ne (m : FrameMap) (k k2 : String)
    (row : List FieldVal) (h : k2 ≠ k) :
    (m.appendRow k row).find? k2 = m.find? k2 := by
  induction m with
  | nil => rfl
  | cons kv rest ih =>
    rcases kv with ⟨k3, f⟩
    by_cases h3 : k3 = k
    · subst h3
      simp [FrameMap.appendRow, FrameMap.find?, Ne.symm h]
    · by_cases h2 : k3 = k2
      · simp [FrameMap.appendRow, FrameMap.find?, h3, h2, h]
      · simp [FrameMap.appendRow, FrameMap.find?, h3, h2, ih]

theorem FrameMap.totalRows_appendRow (m : FrameMap) (k : String)
    (row : List FieldVal) :
    (m.appendRow k row).totalRows
      = m.totalRows + (if k ∈ m.map Prod.fst then 1 else 0) := by
  induction m with
  | nil => rfl
  | cons kv rest ih =>
    rcases kv with ⟨k2, f⟩
    by_cases h : k2 = k
    · subst h
      simp [FrameMap.appendRow, FrameMap.totalRows]
      omega
    · simp only [FrameMap.appendRow, if_neg h, FrameMap.totalRows, List.map_cons,
        List.sum_cons, List.mem_cons] at ih ⊢
      have hne : ¬(k = k2) := fun hc => h hc.symm
      simp only [hne, false_or]
      omega

theorem FrameMap.find?_getOrCreate_self (m : FrameMap) (k : String)
    (fresh : Frame) :
    (m.getOrCreate k fresh).find? k
      = match m.find? k with
        | some f => some f
        | none => some fresh := by
  unfold FrameMap.getOrCreate
  cases hf : m.find? k with
  | some f => simp [hf]
  | none =>
    simp only [hf]
    induction m with
    | nil => simp [FrameMap.find?]
    | cons kv rest ih =>
      rcases kv with ⟨k2, f⟩
      by_cases h : k2 = k
      · rw [FrameMap.find?] at hf
        simp [h] at hf
      · rw [FrameMap.find?] at hf
        simp only [if_neg h] at hf
        simp only [List.cons_append, FrameMap.find?, if_neg h]
        exact ih hf

theorem FrameMap.find?_getOrCreate_ne (m : FrameMap) (k k2 : String)
    (fresh : Frame) (h : k2 ≠ k) :
    (m.getOrCreate k fresh).find? k2 = m.find? k2 := by
  unfold FrameMap.getOrCreate
  cases hf : m.find? k with
  | some f => rfl
  | none =>
    induction m with
    | nil => simp [FrameMap.find?, Ne.symm h]
    | cons kv rest ih =>
      rcases kv with ⟨k3, f⟩
      by_cases h3 : k3 = k
      · rw [FrameMap.find?] at hf
        simp [h3] at hf
      · rw [FrameMap.find?] at hf
        simp only [if_neg h3] at hf
        by_cases h2 : k3 = k2
        · simp [FrameMap.find?, h2]
        · simp only [List.cons_append, FrameMap.find?, if_neg h2]
          exact ih hf

theorem FrameMap.keys_getOrCreate (m : FrameMap) (k : String) (fresh : Frame) :
    (m.getOrCreate k fresh).map Prod.fst
      = if k ∈ m.map Prod.fst then m.map Prod.fst
        else m.map Prod.fst ++ [k] := by
  unfold FrameMap.getOrCreate
  cases hf : m.find? k with
  | some f =>
    have hm : k ∈ m.map Prod.fst := by
      rw [← FrameMap.isSome_find?_iff, hf]
      rfl
    simp [hm]
  | none =>
    have hm : k ∉ m.map Prod.fst := (FrameMap.find?_eq_none_iff m k).mp hf
    simp [hm]

theorem FrameMap.totalRows_getOrCreate (m : FrameMap) (k : String)
    (fresh : Frame) (hfresh : fresh.rows = []) :
    (m.getOrCreate k fresh).totalRows = m.totalRows := by
  unfold FrameMap.getOrCreate
  cases hf : m.find? k with
  | some f => rfl
  | none => simp [FrameMap.totalRows, hfresh]

theorem FrameMap.mem_keys_getOrCreate (m : FrameMap) (k : String)
    (fresh : Frame) : k ∈ (m.getOrCreate k fresh).map Prod.fst := by
  rw [FrameMap.keys_getOrCreate]
  by_cases hm : k ∈ m.map Prod.fst
  · simp [hm]
  · simp [hm]

theorem keys_upsert (m : FrameMap) (k : String) (fresh : Frame)
    (row : List FieldVal) :
    ((m.getOrCreate k fresh).appendRow k row).map Prod.fst
      = if k ∈ m.map Prod.fst then m.map Prod.fst
        else m.map Prod.fst ++ [k] := by
  rw [FrameMap.keys_appendRow, FrameMap.keys_getOrCreate]

theorem nodup_upsert (m : FrameMap) (k : String) (fresh : Frame)
    (row : List FieldVal) (h : (m.map Prod.fst).Nodup) :
    (((m.getOrCreate k fresh).appendRow k row).map Prod.fst).Nodup := by
  rw [keys_upsert]
  by_cases hm : k ∈ m.map Prod.fst
  · simpa [hm]
  · simp [hm, List.nodup_append, h]

theorem rowsAt_upsert_self (m : FrameMap) (k : String) (fresh : Frame)
    (row : List FieldVal) (hfresh : fresh.rows = []) :
    ((m.getOrCreate k fresh).appendRow k row).rowsAt k
      = m.rowsAt k ++ [row] := by
  unfold FrameMap.rowsAt
  rw [FrameMap.find?_appendRow_self, FrameMap.find?_getOrCreate_self]
  cases hf : m.find? k with
  | some f => simp
  | none => simp [hfresh]

theorem rowsAt_upsert_ne (m : FrameMap) (k k2 : String) (fresh : Frame)
    (row : List FieldVal) (h : k2 ≠ k) :
    ((m.getOrCreate k fresh).appendRow k row).rowsAt k2 = m.rowsAt k2 := by
  unfold FrameMap.rowsAt
  rw [FrameMap.find?_appendRow_ne _ _ _ _ h, FrameMap.find?_getOrCreate_ne _ _ _ _ h]

theorem totalRows_upsert (m : FrameMap) (k : String) (fresh : Frame)
    (row : List FieldVal) (hfresh : fresh.rows = []) :
    ((m.getOrCreate k fresh).appendRow k row).totalRows = m.totalRows + 1 := by
  rw [FrameMap.totalRows_appendRow, FrameMap.totalRows_getOrCreate _ _ _ hfresh]
  simp [FrameMap.mem_keys_getOrCreate m k fresh]

theorem stepMonitorError_eq (parse : String → Option Int)
    (st : FrameMap × FrameMap) (e : MonitorErrorCount) :
    stepMonitorError parse st e
      = match parse e.Timestamp with
        | none => st
        | some ts =>
          ((st.1.getOrCreate e.GetKey (mkErrorGraphFrame e)).appendRow
              e.GetKey (errorGraphRow ts e),
            (st.2.getOrCreate e.GetKey mkErrorTableFrame).appendRow
              e.GetKey (errorTableRow ts e)) := rfl

theorem mem_keys_foldErrors (parse : String → Option Int) :
    ∀ (rs : List MonitorErrorCount) (st : FrameMap × FrameMap) (k : String),
      (k ∈ (List.foldl (stepMonitorError parse) st rs).1.map Prod.fst
        ↔ k ∈ st.1.map Prod.fst
          ∨ ∃ r ∈ rs, (parse r.Timestamp).isSome ∧ r.GetKey = k) ∧
      (k ∈ (List.foldl (stepMonitorError parse) st rs).2.map Prod.fst
        ↔ k ∈ st.2.map Prod.fst
          ∨ ∃ r ∈ rs, (parse r.Timestamp).isSome ∧ r.GetKey = k) := by
  intro rs
  induction rs with
  | nil => intro st k; simp
  | cons e rest ih =>
    intro st k
    simp only [List.foldl_cons]
    rw [stepMonitorError_eq]
    cases hp : parse e.Timestamp with
    | none =>
      obtain ⟨ih1, ih2⟩ := ih st k
      constructor
      · rw [ih1]
        simp [hp]
      · rw [ih2]
        simp [hp]
    | some ts =>
      obtain ⟨ih1, ih2⟩ := ih
        ((st.1.getOrCreate e.GetKey (mkErrorGraphFrame e)).appendRow
            e.GetKey (errorGraphRow ts e),
          (st.2.getOrCreate e.GetKey mkErrorTableFrame).appendRow
            e.GetKey (errorTableRow ts e)) k
      constructor
      · rw [ih1]
        simp only [keys_upsert]
        by_cases hm : e.GetKey ∈ st.1.map Prod.fst
        · simp only [if_pos hm, List.mem_cons]
          constructor
          · rintro (h1 | ⟨r, hr, hps, hk⟩)
            · exact Or.inl h1
            · exact Or.inr ⟨r, Or.inr hr, hps, hk⟩
          · rintro (h1 | ⟨r, hr, hps, hk⟩)
            · exact Or.inl h1
            · rcases hr with rfl | hr2
              · exact Or.inl (hk ▸ hm)
              · exact Or.inr ⟨r, hr2, hps, hk⟩
        · simp only [if_neg hm, List.mem_append, List.mem_singleton]
          constructor
          · rintro ((h1 | h1) | ⟨r, hr, hps, hk⟩)
            · exact Or.inl h1
            · exact Or.inr ⟨e, List.mem_cons_self _ _, by simp [hp], h1.symm⟩
            · exact Or.inr ⟨r, List.mem_cons_of_mem _ hr, hps, hk⟩
          · rintro (h1 | ⟨r, hr, hps, hk⟩)
            · exact Or.inl (Or.inl h1)
            · rcases List.mem_cons.mp hr with rfl | hr2
              · exact Or.inl (Or.inr hk.symm)
              · exact Or.inr ⟨r, hr2, hps, hk⟩
      · rw [ih2]
        simp only [keys_upsert]
        by_cases hm : e.GetKey ∈ st.2.map Prod.fst
        · simp only [if_pos hm, List.mem_cons]
          constructor
          · rintro (h1 | ⟨r, hr, hps, hk⟩)
            · exact Or.inl h1
            · exact Or.inr ⟨r, Or.inr hr, hps, hk⟩
          · rintro (h1 | ⟨r, hr, hps, hk⟩)
            · exact Or.inl h1
            · rcases hr with rfl | hr2
              · exact Or.inl (hk ▸ hm)
              · exact Or.inr ⟨r, hr2, hps, hk⟩
        · simp only [if_neg hm, List.mem_append, List.mem_singleton]
          constructor
          · rintro ((h1 | h1) | ⟨r, hr, hps, hk⟩)
            · exact Or.inl h1
            · exact Or.inr ⟨e, List.mem_cons_self _ _, by simp [hp], h1.symm⟩
            · exact Or.inr ⟨r, List.mem_cons_of_mem _ hr, hps, hk⟩
          · rintro (h1 | ⟨r, hr, hps, hk⟩)
            · exact Or.inl (Or.inl h1)
            · rcases List.mem_cons.mp hr with rfl | hr2
              · exact Or.inl (Or.inr hk.symm)
              · exact Or.inr ⟨r, hr2, hps, hk⟩

theorem nodup_keys_foldErrors (parse : String → Option Int) :
    ∀ (rs : List MonitorErrorCount) (st : FrameMap × FrameMap),
      (st.1.map Prod.fst).Nodup → (st.2.map Prod.fst).Nodup →
      ((List.foldl (stepMonitorError parse) st rs).1.map Prod.fst).Nodup ∧
      ((List.foldl (stepMonitorError parse) st rs).2.map Prod.fst).Nodup := by
  intro rs
  induction rs with
  | nil => intro st h1 h2; exact ⟨h1, h2⟩
  | cons e rest ih =>
    intro st h1 h2
    simp only [List.foldl_cons]
    rw [stepMonitorError_eq]
    cases hp : parse e.Timestamp with
    | none => exact ih st h1 h2
    | some ts =>
      exact ih _ (nodup_upsert _ _ _ _ h1) (nodup_upsert _ _ _ _ h2)

/-- The graph row a record contributes to the table at key `k`, if any. -/
def errorGraphRowAt (parse : String → Option Int) (k : String)
    (r : MonitorErrorCount) : Option (List FieldVal) :=
  match parse r.Timestamp with
  | none => none
  | some ts => if r.GetKey = k then some (errorGraphRow ts r) else none

/-- The table row a record contributes to the table at key `k`, if any. -/
def errorTableRowAt (parse : String → Option Int) (k : String)
    (r : MonitorErrorCount) : Option (List FieldVal) :=
  match parse r.Timestamp with
  | none => none
  | some ts => if r.GetKey = k then some (errorTableRow ts r) else none

theorem rowsAt_foldErrors (parse : String → Option Int) :
    ∀ (rs : List MonitorErrorCount) (st : FrameMap × FrameMap) (k : String),
      ((List.foldl (stepMonitorError parse) st rs).1.rowsAt k
        = st.1.rowsAt k ++ rs.filterMap (errorGraphRowAt parse k)) ∧
      ((List.foldl (stepMonitorError parse) st rs).2.rowsAt k
        = st.2.rowsAt k ++ rs.filterMap (errorTableRowAt parse k)) := by
  intro rs
  induction rs with
  | nil => intro st k; simp
  | cons e rest ih =>
    intro st k
    simp only [List.foldl_cons, List.filterMap_cons]
    rw [stepMonitorError_eq]
    cases hp : parse e.Timestamp with
    | none =>
      simp only [errorGraphRowAt, errorTableRowAt, hp]
      exact ih st k
    | some ts =>
      obtain ⟨ih1, ih2⟩ := ih
        ((st.1.getOrCreate e.GetKey (mkErrorGraphFrame e)).appendRow
            e.GetKey (errorGraphRow ts e),
          (st.2.getOrCreate e.GetKey mkErrorTableFrame).appendRow
            e.GetKey (errorTableRow ts e)) k
      simp only [errorGraphRowAt, errorTableRowAt, hp]
      by_cases hk : e.GetKey = k
      · subst hk
        simp only [if_pos rfl]
        constructor
        · rw [ih1, rowsAt_upsert_self _ _ _ _ rfl, List.append_assoc]
          rfl
        · rw [ih2, rowsAt_upsert_self _ _ _ _ rfl, List.append_assoc]
          rfl
      · simp only [if_neg hk]
        constructor
        · rw [ih1, rowsAt_upsert_ne _ _ _ _ _ (fun hc => hk hc.symm)]
        · rw [ih2, rowsAt_upsert_ne _ _ _ _ _ (fun hc => hk hc.symm)]

theorem totalRows_foldErrors (parse : String → Option Int) :
    ∀ (rs : List MonitorErrorCount) (st : FrameMap × FrameMap),
      (List.foldl (stepMonitorError parse) st rs).2.totalRows
        = st.2.totalRows
          + (rs.filter (fun r => (parse r.Timestamp).isSome)).length := by
  intro rs
  induction rs with
  | nil => intro st; simp
  | cons e rest ih =>
    intro st
    simp only [List.foldl_cons, List.filter_cons]
    rw [stepMonitorError_eq]
    cases hp : parse e.Timestamp with
    | none =>
      simp only [hp, Option.isSome_none]
      rw [ih st]
      simp
    | some ts =>
      simp only [hp, Option.isSome_some]
      rw [ih]
      simp only [if_pos rfl]
      rw [totalRows_upsert _ _ _ _ rfl]
      simp [List.length_cons]
      omega

theorem length_filterMap_errorGraphRowAt (parse : String → Option Int)
    (k : String) :
    ∀ rs : List MonitorErrorCount, (∀ r ∈ rs, (parse r.Timestamp).isSome) →
      (rs.filterMap (errorGraphRowAt parse k)).length
        = (rs.filter (fun r => r.GetKey = k)).length := by
  intro rs
  induction rs with
  | nil => intro _; rfl
  | cons e rest ih =>
    intro hp
    have he := hp e (List.mem_cons_self _ _)
    obtain ⟨ts, hts⟩ := Option.isSome_iff_exists.mp he
    simp only [List.filterMap_cons, List.filter_cons, errorGraphRowAt, hts]
    by_cases hk : e.GetKey = k
    · simp [hk, ih (fun r hr => hp r (List.mem_cons_of_mem _ hr))]
    · simp [hk, ih (fun r hr => hp r (List.mem_cons_of_mem _ hr))]

/-- Claim C8: with all timestamps parseable, the graph build produces
exactly one frame per distinct grouping key (keys are never created
twice), and each key's frame holds one row per record sharing that key. -/
theorem monitorErrors_graph_grouping (parse : String → Option Int)
    (rs : List MonitorErrorCount)
    (hp : ∀ r ∈ rs, (parse r.Timestamp).isSome) :
    ((buildMonitorErrorFrameMaps parse rs).1.map Prod.fst).Nodup ∧
    (buildMonitorErrorFrameMaps parse rs).1.length
      = ((rs.map MonitorErrorCount.GetKey).dedup).length ∧
    ∀ k, ((buildMonitorErrorFrameMaps parse rs).1.rowsAt k).length
        = (rs.filter (fun r => r.GetKey = k)).length := by
  have hnd : ((buildMonitorErrorFrameMaps parse rs).1.map Prod.fst).Nodup :=
    (nodup_keys_foldErrors parse rs ([], []) (by simp) (by simp)).1
  refine ⟨hnd, ?_, ?_⟩
  · have hmem : ∀ k, k ∈ (buildMonitorErrorFrameMaps parse rs).1.map Prod.fst
        ↔ k ∈ rs.map MonitorErrorCount.GetKey := by
      intro k
      rw [show (buildMonitorErrorFrameMaps parse rs).1
          = (List.foldl (stepMonitorError parse) ([], []) rs).1 from rfl,
        (mem_keys_foldErrors parse rs ([], []) k).1]
      simp only [List.map_nil, List.not_mem_nil, false_or, List.mem_map]
      constructor
      · rintro ⟨r, hr, _, hk⟩
        exact ⟨r, hr, hk⟩
      · rintro ⟨r, hr, hk⟩
        exact ⟨r, hr, hp r hr, hk⟩
    have hperm : List.Perm ((buildMonitorErrorFrameMaps parse rs).1.map Prod.fst)
        ((rs.map MonitorErrorCount.GetKey).dedup) :=
      (List.perm_ext_iff_of_nodup hnd (List.nodup_dedup _)).mpr
        (fun a => by rw [hmem a, List.mem_dedup])
    calc (buildMonitorErrorFrameMaps parse rs).1.length
        = ((buildMonitorErrorFrameMaps parse rs).1.map Prod.fst).length :=
          (List.length_map _ _).symm
      _ = ((rs.map MonitorErrorCount.GetKey).dedup).length := hperm.length_eq
  · intro k
    have := (rowsAt_foldErrors parse rs ([], []) k).1
    rw [show (buildMonitorErrorFrameMaps parse rs).1
        = (List.foldl (stepMonitorError parse) ([], []) rs).1 from rfl, this]
    simp only [FrameMap.rowsAt, FrameMap.find?, List.nil_append]
    exact length_filterMap_errorGraphRowAt parse k rs hp

/-- First record of the two-key wide-table scenario. -/
def wideCexA : MonitorErrorCount :=
  MonitorErrorCount.mk "2022-12-07T18:28:06Z" 1 "useast1" "Check" "awslambda"

/-- Second record, sharing no grouping key with the first. -/
def wideCexB : MonitorErrorCount :=
  MonitorErrorCount.mk "2022-12-07T18:28:06Z" 2 "useast2" "Check" "awslambda"

/-- Claim C7 (counterexample): the table build does not produce a single
shared table: two parseable records with different grouping keys yield two
wide table frames, and the assembled response carries both. -/
theorem wideTable_not_single :
    (buildMonitorErrorFrameMaps (fun _ => some 0) [wideCexA, wideCexB]).2.length = 2 ∧
    ((queryMonitorErrorsFrames (fun _ => some 0) false [wideCexA, wideCexB]).filter
        (fun f => f.ftype == FrameType.timeSeriesWide)).length = 2 := by
  exact ⟨rfl, rfl⟩

/-- Claim C7 (amended): the table build produces one wide table per
distinct grouping key rather than a single shared table; every record
whose timestamp parses contributes exactly one row, to its key's table, in
the collection's input order; and across the wide tables the total row
count is the record count minus the unparseable records. -/
theorem monitorErrors_wide_tables (parse : String → Option Int)
    (rs : List MonitorErrorCount) :
    ((buildMonitorErrorFrameMaps parse rs).2.map Prod.fst).Nodup ∧
    (∀ k, k ∈ (buildMonitorErrorFrameMaps parse rs).2.map Prod.fst
      ↔ ∃ r ∈ rs, (parse r.Timestamp).isSome ∧ r.GetKey = k) ∧
    (∀ k, (buildMonitorErrorFrameMaps parse rs).2.rowsAt k
      = rs.filterMap (errorTableRowAt parse k)) ∧
    (buildMonitorErrorFrameMaps parse rs).2.totalRows
      = (rs.filter (fun r => (parse r.Timestamp).isSome)).length := by
  refine ⟨(nodup_keys_foldErrors parse rs ([], []) (by simp) (by simp)).2,
    fun k => ?_, fun k => ?_, ?_⟩
  · rw [show (buildMonitorErrorFrameMaps parse rs).2
        = (List.foldl (stepMonitorError parse) ([], []) rs).2 from rfl,
      (mem_keys_foldErrors parse rs ([], []) k).2]
    simp
  · rw [show (buildMonitorErrorFrameMaps parse rs).2
        = (List.foldl (stepMonitorError parse) ([], []) rs).2 from rfl,
      (rowsAt_foldErrors parse rs ([], []) k).2]
    simp [FrameMap.rowsAt, FrameMap.find?]
  · rw [show (buildMonitorErrorFrameMaps parse rs).2
        = (List.foldl (stepMonitorError parse) ([], []) rs).2 from rfl,
      totalRows_foldErrors parse rs ([], [])]
    simp [FrameMap.totalRows]

/-- Witness for the amended C7 at a concrete one-record collection. -/
theorem monitorErrors_wide_tables_witness :
    ((buildMonitorErrorFrameMaps (fun _ => some 0) [wideCexA]).2.map
        Prod.fst).Nodup ∧
    (∀ k, k ∈ (buildMonitorErrorFrameMaps (fun _ => some 0) [wideCexA]).2.map
          Prod.fst
      ↔ ∃ r ∈ [wideCexA],
          ((fun _ => (some 0 : Option Int)) r.Timestamp).isSome ∧ r.GetKey = k) ∧
    (∀ k, (buildMonitorErrorFrameMaps (fun _ => some 0) [wideCexA]).2.rowsAt k
      = [wideCexA].filterMap (errorTableRowAt (fun _ => some 0) k)) ∧
    (buildMonitorErrorFrameMaps (fun _ => some 0) [wideCexA]).2.totalRows
      = ([wideCexA].filter
          (fun r => ((fun _ => (some 0 : Option Int)) r.Timestamp).isSome)).length :=
  monitorErrors_wide_tables (fun _ => some 0) [wideCexA]

/-- Witness for C8 at two concrete records with distinct keys. -/
theorem monitorErrors_graph_grouping_witness :
    ((buildMonitorErrorFrameMaps (fun _ => some 0) [wideCexA, wideCexB]).1.map
        Prod.fst).Nodup ∧
    (buildMonitorErrorFrameMaps (fun _ => some 0) [wideCexA, wideCexB]).1.length
      = (([wideCexA, wideCexB].map MonitorErrorCount.GetKey).dedup).length ∧
    ∀ k, ((buildMonitorErrorFrameMaps (fun _ => some 0)
            [wideCexA, wideCexB]).1.rowsAt k).length
        = ([wideCexA, wideCexB].filter (fun r => r.GetKey = k)).length :=
  monitorErrors_graph_grouping (fun _ => some 0) [wideCexA, wideCexB] (by decide)

theorem ftype_appendRow (k : String) (row : List FieldVal)
    (P : FrameType → Prop) :
    ∀ m : FrameMap, (∀ kv ∈ m, P kv.2.ftype) →
      ∀ kv ∈ FrameMap.appendRow m k row, P kv.2.ftype := by
  intro m
  induction m with
  | nil => simp [FrameMap.appendRow]
  | cons kv0 rest ih =>
    rcases kv0 with ⟨k2, f⟩
    intro h kv hkv
    have hhead := h (k2, f) (List.mem_cons_self _ _)
    have htail : ∀ kv ∈ rest, P kv.2.ftype :=
      fun kv hkv => h kv (List.mem_cons_of_mem _ hkv)
    rw [FrameMap.appendRow] at hkv
    by_cases h2 : k2 = k
    · rw [if_pos h2] at hkv
      rcases List.mem_cons.mp hkv with rfl | hkv2
      · exact hhead
      · exact htail _ hkv2
    · rw [if_neg h2] at hkv
      rcases List.mem_cons.mp hkv with rfl | hkv2
      · exact hhead
      · exact ih htail _ hkv2

theorem ftype_getOrCreate (k : String) (fresh : Frame) (P : FrameType → Prop)
    (hfresh : P fresh.ftype) :
    ∀ m : FrameMap, (∀ kv ∈ m, P kv.2.ftype) →
      ∀ kv ∈ FrameMap.getOrCreate m k fresh, P kv.2.ftype := by
  intro m h kv hkv
  unfold FrameMap.getOrCreate at hkv
  cases hf : m.find? k with
  | some f =>
    rw [hf] at hkv
    exact h kv hkv
  | none =>
    rw [hf] at hkv
    rcases List.mem_append.mp hkv with hkv2 | hkv2
    · exact h kv hkv2
    · rcases List.mem_singleton.mp hkv2 with rfl
      exact hfresh

theorem stepMonitorTelemetry_eq (parse : String → Option Int)
    (st : FrameMap × FrameMap) (te : MonitorTelemetry) :
    stepMonitorTelemetry parse st te
      = match parse te.Timestamp with
        | none => st
        | some ts =>
          ((st.1.getOrCreate te.GetKey (mkTelemetryGraphFrame te)).appendRow
              te.GetKey [.vTime ts, .vInt te.Value],
            (st.2.getOrCreate te.GetKey mkTelemetryTableFrame).appendRow
              te.GetKey
              [.vTime ts, .vInt te.Value, .vStr te.Instance, .vStr te.Check,
                .vStr te.MonitorLogicalName]) := rfl

theorem stepStatusPageChange_eq (parse : String → Option Int)
    (st : FrameMap × FrameMap) (spc : StatusPageComponentChange) :
    stepStatusPageChange parse st spc
      = match parse spc.Timestamp with
        | none => st
        | some ts =>
          ((st.1.getOrCreate spc.GetKey (mkStatusGraphFrame spc)).appendRow
              spc.GetKey [.vTime ts, .vInt (spcStatusToInt spc.Status)],
            (st.2.getOrCreate spc.GetKey mkStatusTableFrame).appendRow
              spc.GetKey
              [.vTime ts, .vInt (spcStatusToInt spc.Status),
                .vStr spc.Component, .vStr spc.MonitorLogicalName]) := rfl

theorem graph_ftype_foldErrors (parse : String → Option Int) :
    ∀ (rs : List MonitorErrorCount) (st : FrameMap × FrameMap),
      (∀ kv ∈ st.1, kv.2.ftype = FrameType.timeSeriesMulti) →
      ∀ kv ∈ (List.foldl (stepMonitorError parse) st rs).1,
        kv.2.ftype = FrameType.timeSeriesMulti := by
  intro rs
  induction rs with
  | nil => intro st h; simpa using h
  | cons e rest ih =>
    intro st h
    simp only [List.foldl_cons]
    rw [stepMonitorError_eq]
    cases hp : parse e.Timestamp with
    | none => exact ih st h
    | some ts =>
      exact ih _ (ftype_appendRow _ _
        (fun t => t = FrameType.timeSeriesMulti) _
        (ftype_getOrCreate _ _ (fun t => t = FrameType.timeSeriesMulti)
          rfl st.1 h))

theorem graph_ftype_foldTelemetry (parse : String → Option Int) :
    ∀ (rs : List MonitorTelemetry) (st : FrameMap × FrameMap),
      (∀ kv ∈ st.1, kv.2.ftype = FrameType.timeSeriesMulti) →
      ∀ kv ∈ (List.foldl (stepMonitorTelemetry parse) st rs).1,
        kv.2.ftype = FrameType.timeSeriesMulti := by
  intro rs
  induction rs with
  | nil => intro st h; simpa using h
  | cons e rest ih =>
    intro st h
    simp only [List.foldl_cons]
    rw [stepMonitorTelemetry_eq]
    cases hp : parse e.Timestamp with
    | none => exact ih st h
    | some ts =>
      exact ih _ (ftype_appendRow _ _
        (fun t => t = FrameType.timeSeriesMulti) _
        (ftype_getOrCreate _ _ (fun t => t = FrameType.timeSeriesMulti)
          rfl st.1 h))

theorem graph_ftype_foldStatus (parse : String → Option Int) :
    ∀ (rs : List StatusPageComponentChange) (st : FrameMap × FrameMap),
      (∀ kv ∈ st.1, kv.2.ftype = FrameType.timeSeriesMulti) →
      ∀ kv ∈ (List.foldl (stepStatusPageChange parse) st rs).1,
        kv.2.ftype = FrameType.timeSeriesMulti := by
  intro rs
  induction rs with
  | nil => intro st h; simpa using h
  | cons e rest ih =>
    intro st h
    simp only [List.foldl_cons]
    rw [stepStatusPageChange_eq]
    cases hp : parse e.Timestamp with
    | none => exact ih st h
    | some ts =>
      exact ih _ (ftype_appendRow _ _
        (fun t => t = FrameType.timeSeriesMulti) _
        (ftype_getOrCreate _ _ (fun t => t = FrameType.timeSeriesMulti)
          rfl st.1 h))

/-- Claim C6: when the query parameters carry FromAlerting = true, each
of the three handlers assembles only graph frames (time-series-multi);
no wide table frame appears in the response, whatever the fetched record
collection. -/
theorem fromAlerting_only_graph_frames (parse : String → Option Int)
    (rsE : List MonitorErrorCount) (rsT : List MonitorTelemetry)
    (rsS : List StatusPageComponentChange) :
    (∀ f ∈ queryMonitorErrorsFrames parse true rsE,
      f.ftype = FrameType.timeSeriesMulti) ∧
    (∀ f ∈ queryMonitorTelemetryFrames parse true rsT,
      f.ftype = FrameType.timeSeriesMulti) ∧
    (∀ f ∈ queryStatusPageFrames parse true rsS,
      f.ftype = FrameType.timeSeriesMulti) := by
  refine ⟨?_, ?_, ?_⟩
  · intro f hf
    simp only [queryMonitorErrorsFrames, Bool.not_true, Bool.false_eq_true,
      if_false] at hf
    obtain ⟨kv, hkv, rfl⟩ := List.mem_map.mp hf
    exact graph_ftype_foldErrors parse rsE ([], []) (by simp) kv hkv
  · intro f hf
    simp only [queryMonitorTelemetryFrames, Bool.not_true, Bool.false_eq_true,
      if_false] at hf
    obtain ⟨kv, hkv, rfl⟩ := List.mem_map.mp hf
    exact graph_ftype_foldTelemetry parse rsT ([], []) (by simp) kv hkv
  · intro f hf
    simp only [queryStatusPageFrames, Bool.not_true, Bool.false_eq_true,
      if_false] at hf
    obtain ⟨f0, hf0, rfl⟩ := List.mem_map.mp hf
    obtain ⟨kv, hkv, rfl⟩ := List.mem_map.mp hf0
    exact graph_ftype_foldStatus parse rsS ([], []) (by simp) kv hkv

/-- Witness for C6: the single graph frame built from one concrete
error-count record under an alerting query has the graph frame type. -/
theorem fromAlerting_only_graph_frames_witness :
    ({ mkErrorGraphFrame wideCexA with
        rows := [errorGraphRow 0 wideCexA] } : Frame).ftype
      = FrameType.timeSeriesMulti :=
  (fromAlerting_only_graph_frames (fun _ => some 0) [wideCexA] [] []).1 _
    (by decide)

/-- The `backend.TimeRange` of a query. -/
structure TimeRange where
  From : Int
  To : Int
deriving DecidableEq

/-- The parsed query JSON (`monitorTelemetryQuery`): monitors plus
optional check/instance filters, the include-shared and from-alerting
flags. -/
structure monitorTelemetryQuery where
  Monitors : List String
  Checks : Option (List String)
  Instances : Option (List String)
  IncludeShared : Bool
  FromAlerting : Bool
deriving DecidableEq

/-- Go `time.Hour` in nanoseconds (the Go `time.Duration` base unit). -/
def timeHour : Int := 3600 * 1000000000

/-- Constant `durationThreeMonths = 3 * 30 * 24 * time.Hour` (datasource.go),
i.e. exactly 90 days. -/
def durationThreeMonths : Int := 3 * 30 * 24 * timeHour

/-- Modelled from the spec: the error value
`errTelemetryRequestedOutsideBounds` returned by the lookback guard; its
`errors.New` definition is not under src/ (only the use at queries.go
line 454 is), and the claims depend only on its identity, not its text. -/
def errTelemetryRequestedOutsideBounds : String :=
  "telemetry requested outside of the last 90 days"

/-- Function `ensureTelemetryRequestWithinLast90Days` (queries.go lines 449-458),
with `time.Now()` passed explicitly (the `.In(fromDate.Location())`
conversion does not change the instant): reject when the query start lies
before now minus the three-month window. -/
def ensureTelemetryRequestWithinLast90Days (now fromDate : Int) : Option String :=
  let threeMonthsAgo := now - durationThreeMonths
  if fromDate < threeMonthsAgo then some errTelemetryRequestedOutsideBounds
  else none

/-- The `backend.DataResponse` as the handlers build it: frames plus the
error/status pair set by `backend.ErrDataResponse`. -/
structure DataResponse where
  Frames : List Frame
  Error : Option String
  Status : Option Int
deriving DecidableEq

/-- Go constant `backend.StatusBadRequest`. -/
def StatusBadRequest : Int := 400

/-- The call `backend.ErrDataResponse(status, msg)`: an empty response flagged
with the error. -/
def ErrDataResponse (status : Int) (msg : String) : DataResponse :=
  { Frames := [], Error := some msg, Status := some status }

/-- Result of one handler call: either a Go panic escaping the handler
(a nil-pointer dereference) or the returned `(DataResponse, error)`. -/
inductive HandlerResult where
  | panic
  | res (resp : DataResponse) (err : Option String)
deriving DecidableEq

/-- Handler `QueryMonitorErrors` (queries.go lines 30-113), past JSON decoding:
fetch, propagate a fetch error with an empty response, short-circuit an
empty collection, otherwise assemble the frames. -/
def QueryMonitorErrors (parse : String → Option Int)
    (q : monitorTelemetryQuery)
    (pages : Nat → Nat → FetchResult MonitorErrorCount) : HandlerResult :=
  match fetchAllMonitorErrors parse q.IncludeShared pages with
  | .error msg => .res { Frames := [], Error := none, Status := none } (some msg)
  | .ok rs =>
    if rs.length = 0 then
      .res { Frames := [], Error := none, Status := none } none
    else
      .res
        { Frames := queryMonitorErrorsFrames parse q.FromAlerting rs,
          Error := none, Status := none } none

/-- Result of the single telemetry page call
(`BackendWebMonitorTelemetryControllerGetWithResponse`): a transport
error, or a response whose `JSON200` is nil exactly on non-200 status. -/
inductive TelemetryCallResult where
  | err (msg : String)
  | ok (json200 : Option (List MonitorTelemetry))
deriving DecidableEq

/-- Handler `QueryMonitorTelemetry` (queries.go lines 193-293), past JSON
decoding, with `time.Now()` explicit; the second component counts remote
calls issued.  `len(*resp.JSON200)` dereferences the nil body of a
non-200 response, which is a panic. -/
def QueryMonitorTelemetry (parse : String → Option Int) (now : Int)
    (tr : TimeRange) (q : monitorTelemetryQuery)
    (call : TelemetryCallResult) : HandlerResult × Nat :=
  match ensureTelemetryRequestWithinLast90Days now tr.From with
  | some msg => (.res (ErrDataResponse StatusBadRequest msg) (some msg), 0)
  | none =>
    match call with
    | .err msg =>
      (.res { Frames := [], Error := none, Status := none } (some msg), 1)
    | .ok none => (.panic, 1)
    | .ok (some rs) =>
      if rs.length = 0 then
        (.res { Frames := [], Error := none, Status := none } none, 1)
      else
        (.res
          { Frames := queryMonitorTelemetryFrames parse q.FromAlerting rs,
            Error := none, Status := none } none, 1)

/-- Handler `QueryMonitorStatusPageChanges` (queries.go lines 296-398), past JSON
decoding: the paginated fetch either fails, faults on a nil body, or
yields the records shaped into frames. -/
def QueryMonitorStatusPageChanges (parse : String → Option Int)
    (q : monitorTelemetryQuery)
    (pages : Nat → FetchResult StatusPageComponentChange) : HandlerResult :=
  match (fetchAllStatusPageMonitor pages).1 with
  | .hardError msg =>
    .res { Frames := [], Error := none, Status := none } (some msg)
  | .fault => .panic
  | .done rs =>
    if rs.length = 0 then
      .res { Frames := [], Error := none, Status := none } none
    else
      .res
        { Frames := queryStatusPageFrames parse q.FromAlerting rs,
          Error := none, Status := none } none

/-- Claim C9: a telemetry query whose start is more than 90 days (the
three-month constant) before the current time is rejected before any
remote call: a bad-request response carrying the lookback error, zero
frames, and zero fetch calls issued; a start within the window is not
rejected by this check. -/
theorem telemetry_lookback_guard (parse : String → Option Int) (now : Int)
    (tr : TimeRange) (q : monitorTelemetryQuery) (call : TelemetryCallResult) :
    (tr.From < now - durationThreeMonths →
      QueryMonitorTelemetry parse now tr q call
        = (.res (ErrDataResponse StatusBadRequest
              errTelemetryRequestedOutsideBounds)
            (some errTelemetryRequestedOutsideBounds), 0)) ∧
    (¬ tr.From < now - durationThreeMonths →
      ensureTelemetryRequestWithinLast90Days now tr.From = none) := by
  constructor
  · intro h
    simp [QueryMonitorTelemetry, ensureTelemetryRequestWithinLast90Days, h]
  · intro h
    simp [ensureTelemetryRequestWithinLast90Days, h]

/-- Witness for C9 at a concrete over-age query. -/
theorem telemetry_lookback_guard_witness :
    QueryMonitorTelemetry (fun _ => none) durationThreeMonths
        (TimeRange.mk (-1) 0)
        (monitorTelemetryQuery.mk ["awslambda"] none none true false)
        (.ok (some []))
      = (.res (ErrDataResponse StatusBadRequest
            errTelemetryRequestedOutsideBounds)
          (some errTelemetryRequestedOutsideBounds), 0) :=
  (telemetry_lookback_guard (fun _ => none) durationThreeMonths
    (TimeRange.mk (-1) 0)
    (monitorTelemetryQuery.mk ["awslambda"] none none true false)
    (.ok (some []))).1 (by decide)

/-- A concrete query value used by the C10 evaluation. -/
def nilBodyQuery : monitorTelemetryQuery :=
  monitorTelemetryQuery.mk ["awslambda"] none none false false

/-- Claim C10 (evaluation at the failing inputs): on a page response with
no parsed 200 body, the errors handler still returns a response pair,
but the telemetry handler and the status-page handler hit a nil-pointer
dereference (panic) instead of returning a response object. -/
theorem handlers_nil_body_behaviour :
    QueryMonitorErrors (fun _ => none) nilBodyQuery (fun _ _ => .ok none)
      = .res { Frames := [], Error := none, Status := none } none ∧
    (QueryMonitorTelemetry (fun _ => none) 0 (TimeRange.mk 0 0) nilBodyQuery
        (.ok none)).1 = .panic ∧
    QueryMonitorStatusPageChanges (fun _ => none) nilBodyQuery
        (fun _ => .ok none) = .panic := by
  exact ⟨rfl, rfl, rfl⟩

end MetristDatasource
